import Mathlib

/-!
# Verification of the fuzzy traffic-light control system

A shallow embedding, over `ℚ`, of the fuzzy-logic traffic-light controller
(`TrafficLightControlSystem.py`) and its tick-driven simulation driver
(`Animation.py`).  The universes, membership functions, rule base, the
`assess_time` classifier, the random-parameter source and the animation state
machine are translated from the Python source.  The generic Mamdani inference
pipeline (fuzzification by linear interpolation, min/max rule evaluation,
clipping implication, max aggregation, discrete centroid defuzzification with
the `NoRuleFired` midpoint fallback) lives in the third-party toolkit the
source calls and is modelled from the specification (sections 4.2-4.5 and 7).
-/

/- Batteries marks the arithmetic on `ℚ` irreducible, which blocks `decide`
from evaluating the embedding on concrete inputs; restore the ordinary
reducibility of those operations. -/
set_option allowUnsafeReducibility true in
attribute [semireducible] Rat.add Rat.sub Rat.mul Rat.inv Rat.div

set_option maxRecDepth 200000

/-! ## Universes (sample grids, `np.arange`) -/

/-- Sample grid np.arange(0, 24, 0.5): 48 samples 0, 0.5, …, 23.5. -/
def trafficUniverse : List ℚ := (List.range 48).map (fun i => (i : ℚ) / 2)

/-- Sample grid np.arange(0, 40, 1): 40 samples 0, 1, …, 39. -/
def carsUniverse : List ℚ := (List.range 40).map (fun i => (i : ℚ))

/-- Sample grid np.arange(0, 100, 1): 100 samples 0, 1, …, 99. -/
def airUniverse : List ℚ := (List.range 100).map (fun i => (i : ℚ))

/-- Sample grid np.arange(0, 1.1, 0.1): 11 samples 0, 0.1, …, 1.0. -/
def emergencyUniverse : List ℚ := (List.range 11).map (fun i => (i : ℚ) / 10)

/-- Sample grid np.arange(0, 22, 1): 22 samples 0, 1, …, 21. -/
def lightUniverse : List ℚ := (List.range 22).map (fun i => (i : ℚ))

/-- Minimum of a sample array (np.min). -/
def listMin : List ℚ → ℚ
  | [] => 0
  | x :: xs => xs.foldl min x

/-- Maximum of a sample array (np.max; also the Python builtin max over a list,
used by assess_time). -/
def listMax : List ℚ → ℚ
  | [] => 0
  | x :: xs => xs.foldl max x

/-! ## Membership functions sampled on a grid -/

/-- Trapezoidal membership function skfuzzy.trapmf evaluated at one point:
0 below a, rising on [a,b], 1 on [b,c], falling on [c,d], 0 above d. -/
def trapmf (a b c d x : ℚ) : ℚ :=
  if x < a then 0
  else if x < b then (x - a) / (b - a)
  else if x ≤ c then 1
  else if x ≤ d then (d - x) / (d - c)
  else 0

/-- Triangular membership function skfuzzy.trimf evaluated at one point. -/
def trimf (a b c x : ℚ) : ℚ :=
  if x < a then 0
  else if x < b then (x - a) / (b - a)
  else if x ≤ c then (c - x) / (c - b)
  else 0

/-- Function combine_trapmf of the source: elementwise max of several
trapezoids sampled on the universe. -/
def combineTrapmf (u : List ℚ) (first : ℚ × ℚ × ℚ × ℚ)
    (rest : List (ℚ × ℚ × ℚ × ℚ)) : List ℚ :=
  (rest.map (fun p => u.map (trapmf p.1 p.2.1 p.2.2.1 p.2.2.2))).foldl
    (List.zipWith max) (u.map (trapmf first.1 first.2.1 first.2.2.1 first.2.2.2))

/-- Modelled from the spec: the triangular auto-partition (spec section 4.1,
auto_partition) used for cars_queuing, air_transparency and
light_duration; the generator itself is the automf of the toolkit, absent from
the repository.  For n levels over [lo, hi] it takes evenly spaced centers
linspace(lo, hi, n) and width (hi - lo) / ((n - 1) / 2), the k-th set
being the triangle at the k-th center. -/
def automfVec (u : List ℚ) (n k : ℕ) : List ℚ :=
  let lo := listMin u
  let hi := listMax u
  let w := (hi - lo) / (((n : ℚ) - 1) / 2)
  let c := lo + (hi - lo) * (k : ℚ) / ((n : ℚ) - 1)
  u.map (trimf (c - w / 2) c (c + w / 2))

/-- Membership vector traffic_during_day[low]. -/
def trafficLowVec : List ℚ :=
  combineTrapmf trafficUniverse (0, 0, 9/2, 11/2) [(21, 22, 47/2, 47/2)]

/-- Membership vector traffic_during_day[medium]. -/
def trafficMedVec : List ℚ :=
  combineTrapmf trafficUniverse (9/2, 11/2, 13/2, 15/2)
    [(10, 11, 14, 15), (18, 19, 21, 22)]

/-- Membership vector traffic_during_day[high]. -/
def trafficHighVec : List ℚ :=
  combineTrapmf trafficUniverse (13/2, 15/2, 10, 11) [(14, 15, 18, 19)]

/-- Membership vector cars_queuing[low] (create_automf, 3 levels). -/
def carsLowVec : List ℚ := automfVec carsUniverse 3 0

/-- Membership vector cars_queuing[medium]. -/
def carsMedVec : List ℚ := automfVec carsUniverse 3 1

/-- Membership vector cars_queuing[high]. -/
def carsHighVec : List ℚ := automfVec carsUniverse 3 2

/-- Membership vector air_transparency[low]. -/
def airLowVec : List ℚ := automfVec airUniverse 3 0

/-- Membership vector air_transparency[medium]. -/
def airMedVec : List ℚ := automfVec airUniverse 3 1

/-- Membership vector air_transparency[high]. -/
def airHighVec : List ℚ := automfVec airUniverse 3 2

/-- Membership vector emergency[is] = concatenate([zeros(n-2), ones(2)]). -/
def emergencyIsVec : List ℚ :=
  List.replicate (emergencyUniverse.length - 2) 0 ++ List.replicate 2 1

/-- Membership vector emergency[is_not] = concatenate([ones(n-2), zeros(2)]). -/
def emergencyIsNotVec : List ℚ :=
  List.replicate (emergencyUniverse.length - 2) 1 ++ List.replicate 2 0

/-- Membership vectors of light_duration: 7-level auto-partition in the order
of LIGHT_LEVELS, index 0 = extremely low … index 6 = extremely high. -/
def lightVec (k : ℕ) : List ℚ := automfVec lightUniverse 7 k

/-! ## Crisp-to-fuzzy interpolation (spec §4.2, `np.interp`) -/

/-- Modelled from the spec: linear interpolation of a sampled membership
vector (spec section 4.2), as np.interp over the list of (sample, value) pairs; values
outside the grid are held at the boundary values. -/
def interpSegs : List (ℚ × ℚ) → ℚ → ℚ
  | [], _ => 0
  | [p], _ => p.2
  | p :: q :: rest, x =>
    if x ≤ p.1 then p.2
    else if x ≤ q.1 then p.2 + (q.2 - p.2) / (q.1 - p.1) * (x - p.1)
    else interpSegs (q :: rest) x

/-- Interpolation skfuzzy.interp_membership with its default
zero_outside_x=True: zero outside the grid, linear interpolation inside. -/
def interpMembership (u v : List ℚ) (x : ℚ) : ℚ :=
  if x < u.headI then 0
  else if u.getLastD 0 < x then 0
  else interpSegs (u.zip v) x

/-- Clipping a crisp input into the universe bounds (the default
clip_to_bounds=True of ControlSystemSimulation). -/
def clip (lo hi x : ℚ) : ℚ := max lo (min x hi)

/-! ## Fuzzification, rules, aggregation, defuzzification -/

/-- The membership degrees of the four crisp inputs against each fuzzy set,
computed once per inference call (spec section 4.3: fuzzification). -/
structure Degrees where
  traffic_low : ℚ
  traffic_medium : ℚ
  traffic_high : ℚ
  cars_low : ℚ
  cars_medium : ℚ
  cars_high : ℚ
  air_low : ℚ
  air_medium : ℚ
  air_high : ℚ
  emergency_is : ℚ
  emergency_is_not : ℚ

/-- Fuzzify the four crisp inputs: clip each into its universe bounds, then
interpolate each membership vector at the clipped value. -/
def fuzzify (t q a e : ℚ) : Degrees :=
  let t := clip (listMin trafficUniverse) (listMax trafficUniverse) t
  let q := clip (listMin carsUniverse) (listMax carsUniverse) q
  let a := clip (listMin airUniverse) (listMax airUniverse) a
  let e := clip (listMin emergencyUniverse) (listMax emergencyUniverse) e
  { traffic_low := interpMembership trafficUniverse trafficLowVec t
    traffic_medium := interpMembership trafficUniverse trafficMedVec t
    traffic_high := interpMembership trafficUniverse trafficHighVec t
    cars_low := interpMembership carsUniverse carsLowVec q
    cars_medium := interpMembership carsUniverse carsMedVec q
    cars_high := interpMembership carsUniverse carsHighVec q
    air_low := interpMembership airUniverse airLowVec a
    air_medium := interpMembership airUniverse airMedVec a
    air_high := interpMembership airUniverse airHighVec a
    emergency_is := interpMembership emergencyUniverse emergencyIsVec e
    emergency_is_not := interpMembership emergencyUniverse emergencyIsNotVec e }

/-- One fuzzy rule: an antecedent expression (AND = min, OR = max, spec
section 4.3) over the fuzzified degrees, and the sampled membership vector of
the consequent set. -/
structure FuzzyRule where
  antecedent : Degrees → ℚ
  consequent : List ℚ

/-- Rule rule_1: (traffic low AND cars low AND air low) OR emergency is
→ light extremely low. -/
def rule1 : FuzzyRule :=
  { antecedent := fun d => max (min (min d.traffic_low d.cars_low) d.air_low) d.emergency_is
    consequent := lightVec 0 }

/-- Rule rule_2 → light very low. -/
def rule2 : FuzzyRule :=
  { antecedent := fun d =>
      min (max (max (min (min d.traffic_low d.cars_low) d.air_medium)
                    (min (min d.traffic_low d.cars_medium) d.air_low))
               (min (min d.traffic_medium d.cars_low) d.air_low))
          d.emergency_is_not
    consequent := lightVec 1 }

/-- Rule rule_3 → light low. -/
def rule3 : FuzzyRule :=
  { antecedent := fun d =>
      min (max (max (max (max (min (min d.traffic_low d.cars_low) d.air_high)
                              (min (min d.traffic_high d.cars_low) d.air_low))
                         (min (min d.traffic_low d.cars_medium) d.air_medium))
                    (min (min d.traffic_medium d.cars_low) d.air_medium))
               (min (min d.traffic_medium d.cars_medium) d.air_low))
          d.emergency_is_not
    consequent := lightVec 2 }

/-- Rule rule_4 → light medium. -/
def rule4 : FuzzyRule :=
  { antecedent := fun d =>
      min (max (max (max (max (max (min (min d.traffic_low d.cars_high) d.air_low)
                                   (min (min d.traffic_low d.cars_medium) d.air_high))
                              (min (min d.traffic_medium d.cars_low) d.air_high))
                         (min (min d.traffic_medium d.cars_medium) d.air_medium))
                    (min (min d.traffic_high d.cars_low) d.air_medium))
               (min (min d.traffic_high d.cars_medium) d.air_low))
          d.emergency_is_not
    consequent := lightVec 3 }

/-- Rule rule_5 → light high. -/
def rule5 : FuzzyRule :=
  { antecedent := fun d =>
      min (max (max (max (max (min (min d.traffic_low d.cars_high) d.air_medium)
                              (min (min d.traffic_medium d.cars_high) d.air_low))
                         (min (min d.traffic_medium d.cars_medium) d.air_high))
                    (min (min d.traffic_high d.cars_low) d.air_high))
               (min (min d.traffic_high d.cars_medium) d.air_medium))
          d.emergency_is_not
    consequent := lightVec 4 }

/-- Rule rule_6 → light very high. -/
def rule6 : FuzzyRule :=
  { antecedent := fun d =>
      min (max (max (max (min (min d.traffic_low d.cars_high) d.air_high)
                         (min (min d.traffic_medium d.cars_high) d.air_medium))
                    (min (min d.traffic_high d.cars_high) d.air_low))
               (min (min d.traffic_high d.cars_medium) d.air_high))
          d.emergency_is_not
    consequent := lightVec 5 }

/-- Rule rule_7 → light extremely high. -/
def rule7 : FuzzyRule :=
  { antecedent := fun d =>
      min (max (max (min (min d.traffic_medium d.cars_high) d.air_high)
                    (min (min d.traffic_high d.cars_high) d.air_medium))
               (min (min d.traffic_high d.cars_high) d.air_high))
          d.emergency_is_not
    consequent := lightVec 6 }

/-- Ordered rule base built by _create_rules. -/
def trafficRules : List FuzzyRule := [rule1, rule2, rule3, rule4, rule5, rule6, rule7]

/-- Modelled from the spec: implication and aggregation (spec section 4.4, the Mamdani
pipeline of the toolkit).  Each rule clips its consequent vector at the firing
strength (pointwise `min`); the aggregated vector is the pointwise `max` over
all fired vectors, starting from the all-zero vector (so an empty rule base
aggregates to all-zero). -/
def aggregateRules (rules : List FuzzyRule) (d : Degrees) : List ℚ :=
  rules.foldl
    (fun acc r => List.zipWith max acc (r.consequent.map (min (r.antecedent d))))
    (List.replicate lightUniverse.length 0)

/-- Modelled from the spec: centroid defuzzification (spec section 4.5),
the sum of x_i · μ_i divided by the sum of μ_i, with the NoRuleFired
fallback (spec section 7): if the sum of μ_i is 0, return the midpoint of the consequent universe. -/
def centroid (u v : List ℚ) : ℚ :=
  let s := v.sum
  if s = 0 then (listMin u + listMax u) / 2
  else (List.zipWith (· * ·) u v).sum / s

/-- Modelled from the spec: the full inference run (spec sections 4.2-4.5), parameterized
by the rule base. -/
def inferRules (rules : List FuzzyRule) (t q a e : ℚ) : ℚ :=
  centroid lightUniverse (aggregateRules rules (fuzzify t q a e))

/-- Method perform_simulation of TrafficLightControlSystem: set the four
crisp inputs and compute the defuzzified light duration under the rule base. -/
def perform_simulation (time_of_day cars_queuing air_transparency emergency : ℚ) : ℚ :=
  inferRules trafficRules time_of_day cars_queuing air_transparency emergency

/-- Method assess_time of TrafficLightControlSystemSetup: interpolate the
three traffic-density membership functions at the given time value, in the
fixed order [high, medium, low], and return the index of the first entry
achieving the maximum (Python list.index(max(list))). -/
def assess_time (value : ℚ) : ℕ :=
  let time_assessment :=
    [interpMembership trafficUniverse trafficHighVec value,
     interpMembership trafficUniverse trafficMedVec value,
     interpMembership trafficUniverse trafficLowVec value]
  time_assessment.findIdx (· = listMax time_assessment)

/-! ## The simulation driver (Animation.py) -/

/-- Constant DECREASE_CARS_RATE. -/
def DECREASE_CARS_RATE : ℕ := 5

/-- Constant PARAMETERS_CHANGE_RATE. -/
def PARAMETERS_CHANGE_RATE : ℕ := 250

/-- Constant EMERGENCY_THRESHOLD. -/
def EMERGENCY_THRESHOLD : ℚ := 8/10

/-- Rounding of Python: round half to even (the builtin round; round(x, 0)
and round(x) agree on the sign-free inputs that occur here). -/
def pyRound (x : ℚ) : ℤ :=
  if x - ⌊x⌋ < 1/2 then ⌊x⌋
  else if 1/2 < x - ⌊x⌋ then ⌊x⌋ + 1
  else if ⌊x⌋ % 2 = 0 then ⌊x⌋ else ⌊x⌋ + 1

/-- Mutable state of the Animation object: the next-switch marker, the flag
switch_x_y (true when direction X has green), the two line widths standing
for the queue lengths, and the scenario parameters; increase_cars_rate is
fixed at construction from assess_time. -/
structure AnimationState where
  marker : ℚ
  switch_x_y : Bool
  queue_x : ℚ
  queue_y : ℚ
  time_of_day : ℚ
  air_transparency : ℚ
  emergency : ℚ
  increase_cars_rate : ℕ

/-- Fresh values the random source would hand out during one tick (the
driver consumes them when a resample happens; spec section 6,
ScenarioParameterSource). -/
structure TickRandom where
  fresh_emergency_switch : ℚ
  fresh_air : ℚ
  fresh_emergency : ℚ

/-- Queue length of the direction that currently has green. -/
def activeQueue (s : AnimationState) : ℚ :=
  if s.switch_x_y then s.queue_x else s.queue_y

/-- Queue length of the direction that currently has red. -/
def inactiveQueue (s : AnimationState) : ℚ :=
  if s.switch_x_y then s.queue_y else s.queue_x

/-- Method __adjust_car_number: add the change to the line width, floored
at 0. -/
def adjust_car_number (w change : ℚ) : ℚ := max (w + change) 0

/-- Method __initialize_simulation: run inference with the queue of
direction X and set the marker to round(duration * 10). -/
def initialize_simulation (s : AnimationState) : AnimationState :=
  { s with marker := (pyRound (perform_simulation s.time_of_day s.queue_x
      s.air_transparency s.emergency * 10) : ℚ) }

/-- Method __update_marker_and_switch: run inference with the line width of
the other direction, add round(duration * 10) to the marker, toggle the
active direction, and if the emergency parameter exceeds the threshold,
resample it. -/
def update_marker_and_switch (s : AnimationState) (fresh : ℚ) : AnimationState :=
  let new_linewidth := if s.switch_x_y then s.queue_y else s.queue_x
  let outcome : ℚ := (pyRound (perform_simulation s.time_of_day new_linewidth
      s.air_transparency s.emergency * 10) : ℚ)
  let s1 := { s with marker := s.marker + outcome, switch_x_y := ! s.switch_x_y }
  if EMERGENCY_THRESHOLD < s1.emergency then { s1 with emergency := fresh }
  else s1

/-- Method _update, the per-tick driver: initialization at tick 0, switch at
the marker tick, queue growth every increase_cars_rate ticks, queue decrease
of the direction picked by switch_x_y every DECREASE_CARS_RATE ticks, and
parameter resampling every PARAMETERS_CHANGE_RATE ticks, in this order,
each step reading the state left by the previous one. -/
def update (i : ℕ) (s : AnimationState) (r : TickRandom) : AnimationState :=
  let s1 := if i = 0 then initialize_simulation s else s
  let s2 := if (i : ℚ) = s1.marker then update_marker_and_switch s1 r.fresh_emergency_switch else s1
  let s3 := if i % s2.increase_cars_rate = 0 then
      { s2 with queue_x := adjust_car_number s2.queue_x 1,
                queue_y := adjust_car_number s2.queue_y 1 } else s2
  let s4 := if i % DECREASE_CARS_RATE = 0 then
      (if s3.switch_x_y then { s3 with queue_x := adjust_car_number s3.queue_x (-1) }
       else { s3 with queue_y := adjust_car_number s3.queue_y (-1) }) else s3
  let s5 := if i % PARAMETERS_CHANGE_RATE = 0 then
      { s4 with air_transparency := r.fresh_air, emergency := r.fresh_emergency } else s4
  s5

/-! ## The random parameter source (RandomParameters) -/

/-- Python round(x, 1): round half to even at one decimal place. -/
def pyRound1 (x : ℚ) : ℚ := (pyRound (x * 10) : ℚ) / 10

/-- Raw draws of the underlying random source for RandomParameters.__init__:
randint(a, b) yields an integer with a ≤ n ≤ b (both ends inclusive), and
random() yields a real in [0, 1). -/
structure InitRandom where
  rand_time : ℤ
  rand_cars_x : ℤ
  rand_cars_y : ℤ
  rand_air : ℤ
  rand_emergency : ℚ

/-- Fields of a RandomParameters object. -/
structure RandomParameters where
  time_of_day : ℚ
  cars_queuing_x : ℚ
  cars_queuing_y : ℚ
  air_transparency : ℚ
  emergency : ℚ

/-- Constructor RandomParameters.__init__:
time_of_day = randint(0, 48) / 2, queues = randint(0, 40),
air = randint(0, 100), emergency = round(random(), 1). -/
def mkRandomParameters (g : InitRandom) : RandomParameters :=
  { time_of_day := (g.rand_time : ℚ) / 2
    cars_queuing_x := (g.rand_cars_x : ℚ)
    cars_queuing_y := (g.rand_cars_y : ℚ)
    air_transparency := (g.rand_air : ℚ)
    emergency := pyRound1 g.rand_emergency }

/-- Method change_air_transparency: air = randint(0, 100). -/
def change_air_transparency (p : RandomParameters) (fresh : ℤ) : RandomParameters :=
  { p with air_transparency := (fresh : ℚ) }

/-- Method change_emergency: emergency = round(random(), 1). -/
def change_emergency (p : RandomParameters) (fresh : ℚ) : RandomParameters :=
  { p with emergency := pyRound1 fresh }

/-! ## The stateful simulation object (ControlSystemSimulation inputs) -/

/-- Modelled from the spec: the input registers of the simulation object that
perform_simulation writes before computing (the only state the method
touches); absent fields stand for inputs never assigned. -/
structure SimulationInputs where
  in_traffic_during_day : Option ℚ
  in_cars_queuing : Option ℚ
  in_air_transparency : Option ℚ
  in_emergency : Option ℚ

/-- Modelled from the spec: compute() as a pure function of the stored
inputs (spec section 5); none when some input was never assigned. -/
def computeOutput (st : SimulationInputs) : Option ℚ :=
  match st.in_traffic_during_day, st.in_cars_queuing,
        st.in_air_transparency, st.in_emergency with
  | some t, some q, some a, some e => some (perform_simulation t q a e)
  | _, _, _, _ => none

/-- Method perform_simulation as executed on the simulation object: assign
the four input registers in source order, run compute, read the output. -/
def perform_simulation_stateful (st : SimulationInputs) (t q a e : ℚ) :
    Option ℚ × SimulationInputs :=
  let st1 := { st with in_traffic_during_day := some t }
  let st2 := { st1 with in_cars_queuing := some q }
  let st3 := { st2 with in_air_transparency := some a }
  let st4 := { st3 with in_emergency := some e }
  (computeOutput st4, st4)

/-! ## Theorems -/

/-- Executable check that the first components of a pair list are strictly
increasing (the universes are, and zipping keeps their order). -/
def incrFst : List (ℚ × ℚ) → Bool
  | [] => true
  | [_] => true
  | p :: q :: rest => (decide (p.1 < q.1) && incrFst (q :: rest))

/-- Unfolding of interpSegs on a list with at least two nodes. -/
theorem interpSegs_cons_cons (p q : ℚ × ℚ) (rest : List (ℚ × ℚ)) (x : ℚ) :
    interpSegs (p :: q :: rest) x =
      if x ≤ p.1 then p.2
      else if x ≤ q.1 then p.2 + (q.2 - p.2) / (q.1 - p.1) * (x - p.1)
      else interpSegs (q :: rest) x := rfl

/-- Interpolation skips a node that lies strictly left of the query. -/
theorem interpSegs_skip (p q : ℚ × ℚ) (rest : List (ℚ × ℚ)) (x : ℚ)
    (hp : ¬ x ≤ p.1) (hq : ¬ x ≤ q.1) :
    interpSegs (p :: q :: rest) x = interpSegs (q :: rest) x := by
  rw [interpSegs_cons_cons, if_neg hp, if_neg hq]

/-- Interpolation on the bracketing segment. -/
theorem interpSegs_at (p q : ℚ × ℚ) (rest : List (ℚ × ℚ)) (x : ℚ)
    (hp : ¬ x ≤ p.1) (hq : x ≤ q.1) :
    interpSegs (p :: q :: rest) x =
      p.2 + (q.2 - p.2) / (q.1 - p.1) * (x - p.1) := by
  rw [interpSegs_cons_cons, if_neg hp, if_pos hq]

/-- Linear interpolation of values lying in an interval stays in that
interval, for any query point. -/
theorem interpSegs_bounds (lo hi : ℚ) :
    ∀ (l : List (ℚ × ℚ)) (x : ℚ), incrFst l = true →
      (∀ p ∈ l, lo ≤ p.2 ∧ p.2 ≤ hi) → l ≠ [] →
      lo ≤ interpSegs l x ∧ interpSegs l x ≤ hi
  | [], _, _, _, hne => absurd rfl hne
  | [p], x, _, hmem, _ => by
    simpa [interpSegs] using hmem p (by simp)
  | p :: q :: rest, x, hincr, hmem, _ => by
    simp only [incrFst, Bool.and_eq_true, decide_eq_true_eq] at hincr
    obtain ⟨hpq, hincr1⟩ := hincr
    have hp := hmem p (by simp)
    have hq := hmem q (by simp)
    have hmem1 : ∀ w ∈ q :: rest, lo ≤ w.2 ∧ w.2 ≤ hi := fun w hw =>
      hmem w (List.mem_cons_of_mem _ hw)
    rw [interpSegs_cons_cons]
    by_cases h1 : x ≤ p.1
    · rw [if_pos h1]
      exact hp
    · rw [if_neg h1]
      by_cases h2 : x ≤ q.1
      · rw [if_pos h2]
        have hx1 : p.1 < x := not_le.mp h1
        have hdpos : (0 : ℚ) < q.1 - p.1 := by linarith
        have hr0 : 0 ≤ (x - p.1) / (q.1 - p.1) :=
          div_nonneg (by linarith) (le_of_lt hdpos)
        have hr1 : (x - p.1) / (q.1 - p.1) ≤ 1 := by
          rw [div_le_one hdpos]
          linarith
        have hval : p.2 + (q.2 - p.2) / (q.1 - p.1) * (x - p.1) =
            p.2 + (q.2 - p.2) * ((x - p.1) / (q.1 - p.1)) := by
          ring
        rw [hval]
        constructor
        · nlinarith [mul_nonneg (sub_nonneg.mpr hp.1) (sub_nonneg.mpr hr1),
            mul_nonneg (sub_nonneg.mpr hq.1) hr0]
        · nlinarith [mul_nonneg (sub_nonneg.mpr hp.2) (sub_nonneg.mpr hr1),
            mul_nonneg (sub_nonneg.mpr hq.2) hr0]
      · rw [if_neg h2]
        exact interpSegs_bounds lo hi (q :: rest) x hincr1 hmem1 (by simp)

/-- Membership interpolation of a vector with entries in the unit interval
yields a degree in the unit interval. -/
theorem interpMembership_unit (u v : List ℚ) (x : ℚ)
    (hincr : incrFst (u.zip v) = true)
    (hmem : ∀ p ∈ u.zip v, 0 ≤ p.2 ∧ p.2 ≤ 1)
    (hne : u.zip v ≠ []) :
    0 ≤ interpMembership u v x ∧ interpMembership u v x ≤ 1 := by
  rw [interpMembership]
  split_ifs
  · exact ⟨le_refl 0, by norm_num⟩
  · exact ⟨le_refl 0, by norm_num⟩
  · exact interpSegs_bounds 0 1 (u.zip v) x hincr hmem hne

/-- Pointwise maximum with a componentwise nonnegative left list is
nonnegative on the zipped range. -/
theorem zipWith_max_nonneg_left : ∀ (a b : List ℚ), (∀ y ∈ a, 0 ≤ y) →
    ∀ y ∈ List.zipWith max a b, 0 ≤ y
  | [], _, _ => by simp
  | _ :: _, [], _ => by simp
  | x :: xs, z :: zs, hmem => by
    intro y hy
    rw [List.zipWith_cons_cons] at hy
    rcases List.mem_cons.1 hy with rfl | hy1
    · exact le_trans (hmem x (by simp)) (le_max_left x z)
    · exact zipWith_max_nonneg_left xs zs
        (fun w hw => hmem w (List.mem_cons_of_mem _ hw)) y hy1

/-- Folding clipped consequents by pointwise maximum keeps every entry
nonnegative, whatever the rules and firing strengths are. -/
theorem foldl_clip_nonneg (d : Degrees) :
    ∀ (rules : List FuzzyRule) (acc : List ℚ), (∀ y ∈ acc, 0 ≤ y) →
      ∀ y ∈ rules.foldl (fun acc r =>
        List.zipWith max acc (r.consequent.map (min (r.antecedent d)))) acc,
        0 ≤ y
  | [], acc, hacc => by simpa using hacc
  | r :: rs, acc, hacc => by
    rw [List.foldl_cons]
    exact foldl_clip_nonneg d rs _ (zipWith_max_nonneg_left _ _ hacc)

/-- Every entry of the aggregated membership vector is nonnegative. -/
theorem aggregateRules_nonneg (rules : List FuzzyRule) (d : Degrees) :
    ∀ y ∈ aggregateRules rules d, 0 ≤ y :=
  foldl_clip_nonneg d rules _
    (fun y hy => by rw [List.eq_of_mem_replicate hy])

/-- Bounds on the weighted sum of grid points against nonnegative weights. -/
theorem dot_sum_bounds (hi : ℚ) (hhi : 0 ≤ hi) :
    ∀ (u v : List ℚ), (∀ x ∈ u, 0 ≤ x ∧ x ≤ hi) → (∀ m ∈ v, 0 ≤ m) →
      0 ≤ (List.zipWith (· * ·) u v).sum ∧
      (List.zipWith (· * ·) u v).sum ≤ hi * v.sum
  | [], v, _, hv => by
    simp only [List.zipWith_nil_left, List.sum_nil]
    exact ⟨le_refl 0, mul_nonneg hhi (List.sum_nonneg hv)⟩
  | _ :: _, [], _, _ => by simp
  | x :: xs, m :: ms, hu, hv => by
    rw [List.zipWith_cons_cons, List.sum_cons, List.sum_cons]
    have hx := hu x (by simp)
    have hm := hv m (by simp)
    have ih := dot_sum_bounds hi hhi xs ms
      (fun w hw => hu w (List.mem_cons_of_mem _ hw))
      (fun w hw => hv w (List.mem_cons_of_mem _ hw))
    constructor
    · have hxm : 0 ≤ x * m := mul_nonneg hx.1 hm
      linarith [ih.1]
    · have h1 : x * m ≤ hi * m := mul_le_mul_of_nonneg_right hx.2 hm
      rw [mul_add]
      linarith [ih.2]

/-- Centroid defuzzification over the light-duration grid of any nonnegative
membership vector lands inside the declared output range. -/
theorem centroid_light_bounds (v : List ℚ) (hv : ∀ m ∈ v, 0 ≤ m) :
    0 ≤ centroid lightUniverse v ∧ centroid lightUniverse v < 22 := by
  rw [centroid]
  by_cases hs : v.sum = 0
  · rw [if_pos hs]
    exact ⟨by decide, by decide⟩
  · rw [if_neg hs]
    have hsum0 : 0 ≤ v.sum := List.sum_nonneg hv
    have hspos : 0 < v.sum := lt_of_le_of_ne hsum0 (Ne.symm hs)
    have hu : ∀ x ∈ lightUniverse, 0 ≤ x ∧ x ≤ 21 := by decide
    have hd := dot_sum_bounds 21 (by norm_num) lightUniverse v hu hv
    constructor
    · exact div_nonneg hd.1 hsum0
    · rw [div_lt_iff₀ hspos]
      linarith [hd.2, hspos]

/-- First index of the maximum in a three-element list, characterized by
order comparisons: index 0 whenever the first entry attains the maximum,
index 1 when only the second does, index 2 when only the third does. -/
theorem list_findIdx_max3 (h m l : ℚ) :
    (([h, m, l].findIdx (· = listMax [h, m, l]) = 0) ↔ m ≤ h ∧ l ≤ h) ∧
    (([h, m, l].findIdx (· = listMax [h, m, l]) = 1) ↔ h < m ∧ l ≤ m) ∧
    (([h, m, l].findIdx (· = listMax [h, m, l]) = 2) ↔ h < l ∧ m < l) := by
  have hM : listMax [h, m, l] = max (max h m) l := rfl
  simp only [hM, List.findIdx_cons, List.findIdx_nil]
  by_cases hh : h = max (max h m) l
  · have hmh : m ≤ h := by
      have hx : m ≤ max (max h m) l := le_trans (le_max_right h m) (le_max_left _ _)
      rw [← hh] at hx
      exact hx
    have hlh : l ≤ h := by
      have hx : l ≤ max (max h m) l := le_max_right _ _
      rw [← hh] at hx
      exact hx
    simp only [decide_eq_true hh, cond_true]
    refine ⟨iff_of_true (by norm_num) ⟨hmh, hlh⟩, ?_, ?_⟩
    · exact iff_of_false (by norm_num) (fun hc => absurd hc.1 (not_lt.mpr hmh))
    · exact iff_of_false (by norm_num) (fun hc => absurd hc.1 (not_lt.mpr hlh))
  · by_cases hm2 : m = max (max h m) l
    · have hle : h ≤ m := by
        have hx : h ≤ max (max h m) l := le_trans (le_max_left h m) (le_max_left _ _)
        rw [← hm2] at hx
        exact hx
      have hhm : h < m := lt_of_le_of_ne hle (fun he => hh (he.trans hm2))
      have hlm : l ≤ m := by
        have hx : l ≤ max (max h m) l := le_max_right _ _
        rw [← hm2] at hx
        exact hx
      simp only [decide_eq_false hh, cond_false, decide_eq_true hm2, cond_true]
      refine ⟨?_, ?_, ?_⟩
      · exact iff_of_false (by norm_num) (fun hc => absurd hc.1 (not_le.mpr hhm))
      · exact iff_of_true (by norm_num) ⟨hhm, hlm⟩
      · exact iff_of_false (by norm_num) (fun hc => absurd hc.2 (not_lt.mpr hlm))
    · have hl2 : l = max (max h m) l := by
        rcases max_choice (max h m) l with hc | hc
        · rcases max_choice h m with hc2 | hc2
          · exact absurd (hc.trans hc2).symm hh
          · exact absurd (hc.trans hc2).symm hm2
        · exact hc.symm
      have hhl : h < l := by
        have hx : h ≤ max (max h m) l := le_trans (le_max_left h m) (le_max_left _ _)
        rw [← hl2] at hx
        exact lt_of_le_of_ne hx (fun he => hh (he.trans hl2))
      have hml : m < l := by
        have hx : m ≤ max (max h m) l := le_trans (le_max_right h m) (le_max_left _ _)
        rw [← hl2] at hx
        exact lt_of_le_of_ne hx (fun he => hm2 (he.trans hl2))
      simp only [decide_eq_false hh, cond_false, decide_eq_false hm2,
        decide_eq_true hl2, cond_true]
      refine ⟨?_, ?_, ?_⟩
      · exact iff_of_false (by norm_num) (fun hc => absurd hc.2 (not_le.mpr hhl))
      · exact iff_of_false (by norm_num) (fun hc => absurd hc.2 (not_le.mpr hml))
      · exact iff_of_true (by norm_num) ⟨hhl, hml⟩


/-- Projection of fuzzify: the traffic low degree. -/
theorem fuzzify_traffic_low (t q a e : ℚ) :
    (fuzzify t q a e).traffic_low = interpMembership trafficUniverse
      trafficLowVec (clip (listMin trafficUniverse) (listMax trafficUniverse) t) := rfl

/-- Projection of fuzzify: the traffic medium degree. -/
theorem fuzzify_traffic_medium (t q a e : ℚ) :
    (fuzzify t q a e).traffic_medium = interpMembership trafficUniverse
      trafficMedVec (clip (listMin trafficUniverse) (listMax trafficUniverse) t) := rfl

/-- Projection of fuzzify: the traffic high degree. -/
theorem fuzzify_traffic_high (t q a e : ℚ) :
    (fuzzify t q a e).traffic_high = interpMembership trafficUniverse
      trafficHighVec (clip (listMin trafficUniverse) (listMax trafficUniverse) t) := rfl

/-- Projection of fuzzify: the cars low degree. -/
theorem fuzzify_cars_low (t q a e : ℚ) :
    (fuzzify t q a e).cars_low = interpMembership carsUniverse
      carsLowVec (clip (listMin carsUniverse) (listMax carsUniverse) q) := rfl

/-- Projection of fuzzify: the cars medium degree. -/
theorem fuzzify_cars_medium (t q a e : ℚ) :
    (fuzzify t q a e).cars_medium = interpMembership carsUniverse
      carsMedVec (clip (listMin carsUniverse) (listMax carsUniverse) q) := rfl

/-- Projection of fuzzify: the cars high degree. -/
theorem fuzzify_cars_high (t q a e : ℚ) :
    (fuzzify t q a e).cars_high = interpMembership carsUniverse
      carsHighVec (clip (listMin carsUniverse) (listMax carsUniverse) q) := rfl

/-- Projection of fuzzify: the air low degree. -/
theorem fuzzify_air_low (t q a e : ℚ) :
    (fuzzify t q a e).air_low = interpMembership airUniverse
      airLowVec (clip (listMin airUniverse) (listMax airUniverse) a) := rfl

/-- Projection of fuzzify: the air medium degree. -/
theorem fuzzify_air_medium (t q a e : ℚ) :
    (fuzzify t q a e).air_medium = interpMembership airUniverse
      airMedVec (clip (listMin airUniverse) (listMax airUniverse) a) := rfl

/-- Projection of fuzzify: the air high degree. -/
theorem fuzzify_air_high (t q a e : ℚ) :
    (fuzzify t q a e).air_high = interpMembership airUniverse
      airHighVec (clip (listMin airUniverse) (listMax airUniverse) a) := rfl

/-- Projection of fuzzify: the emergency is degree. -/
theorem fuzzify_emergency_is (t q a e : ℚ) :
    (fuzzify t q a e).emergency_is = interpMembership emergencyUniverse
      emergencyIsVec (clip (listMin emergencyUniverse) (listMax emergencyUniverse) e) := rfl

/-- Projection of fuzzify: the emergency is_not degree. -/
theorem fuzzify_emergency_is_not (t q a e : ℚ) :
    (fuzzify t q a e).emergency_is_not = interpMembership emergencyUniverse
      emergencyIsNotVec (clip (listMin emergencyUniverse) (listMax emergencyUniverse) e) := rfl

/-- All nine traffic, cars and air degrees produced by fuzzification lie in
the unit interval. -/
theorem fuzzify_degree_bounds (t q a e : ℚ) :
    (0 ≤ (fuzzify t q a e).traffic_low ∧ (fuzzify t q a e).traffic_low ≤ 1) ∧
    (0 ≤ (fuzzify t q a e).traffic_medium ∧ (fuzzify t q a e).traffic_medium ≤ 1) ∧
    (0 ≤ (fuzzify t q a e).traffic_high ∧ (fuzzify t q a e).traffic_high ≤ 1) ∧
    (0 ≤ (fuzzify t q a e).cars_low ∧ (fuzzify t q a e).cars_low ≤ 1) ∧
    (0 ≤ (fuzzify t q a e).cars_medium ∧ (fuzzify t q a e).cars_medium ≤ 1) ∧
    (0 ≤ (fuzzify t q a e).cars_high ∧ (fuzzify t q a e).cars_high ≤ 1) ∧
    (0 ≤ (fuzzify t q a e).air_low ∧ (fuzzify t q a e).air_low ≤ 1) ∧
    (0 ≤ (fuzzify t q a e).air_medium ∧ (fuzzify t q a e).air_medium ≤ 1) ∧
    (0 ≤ (fuzzify t q a e).air_high ∧ (fuzzify t q a e).air_high ≤ 1) := by
  refine ⟨?_, ?_, ?_, ?_, ?_, ?_, ?_, ?_, ?_⟩
  · rw [fuzzify_traffic_low]
    exact interpMembership_unit _ _ _ (by decide) (by decide) (by decide)
  · rw [fuzzify_traffic_medium]
    exact interpMembership_unit _ _ _ (by decide) (by decide) (by decide)
  · rw [fuzzify_traffic_high]
    exact interpMembership_unit _ _ _ (by decide) (by decide) (by decide)
  · rw [fuzzify_cars_low]
    exact interpMembership_unit _ _ _ (by decide) (by decide) (by decide)
  · rw [fuzzify_cars_medium]
    exact interpMembership_unit _ _ _ (by decide) (by decide) (by decide)
  · rw [fuzzify_cars_high]
    exact interpMembership_unit _ _ _ (by decide) (by decide) (by decide)
  · rw [fuzzify_air_low]
    exact interpMembership_unit _ _ _ (by decide) (by decide) (by decide)
  · rw [fuzzify_air_medium]
    exact interpMembership_unit _ _ _ (by decide) (by decide) (by decide)
  · rw [fuzzify_air_high]
    exact interpMembership_unit _ _ _ (by decide) (by decide) (by decide)

/-- Clipping leaves an emergency value already inside [0, 1] unchanged. -/
theorem clip_emergency_eq (e : ℚ) (he1 : 0 ≤ e) (he2 : e ≤ 1) :
    clip (listMin emergencyUniverse) (listMax emergencyUniverse) e = e := by
  rw [show listMin emergencyUniverse = (0:ℚ) from by decide,
      show listMax emergencyUniverse = (1:ℚ) from by decide, clip,
      min_eq_left he2, max_eq_right he1]

/-- On the full-emergency band [0.9, 1] the is-membership interpolates to 1. -/
theorem emergencyIs_interp_one (e : ℚ) (he1 : 9/10 ≤ e) (he2 : e ≤ 1) :
    interpMembership emergencyUniverse emergencyIsVec e = 1 := by
  rcases eq_or_lt_of_le he1 with heq | hlt
  · rw [← heq]
    decide
  · have hh : ¬ e < emergencyUniverse.headI := by
      rw [show emergencyUniverse.headI = (0:ℚ) from by decide]
      linarith
    have hl : ¬ (emergencyUniverse.getLastD 0 < e) := by
      rw [show emergencyUniverse.getLastD 0 = (1:ℚ) from by decide]
      linarith
    rw [interpMembership, if_neg hh, if_neg hl]
    rw [show emergencyUniverse.zip emergencyIsVec =
      [((0:ℚ), (0:ℚ)), (1/10, 0), (2/10, 0), (3/10, 0), (4/10, 0), (5/10, 0),
       (6/10, 0), (7/10, 0), (8/10, 0), (9/10, 1), (1, 1)] from by decide]
    rw [interpSegs_skip _ _ _ _ (by show ¬ e ≤ (0:ℚ); linarith)
      (by show ¬ e ≤ (1:ℚ)/10; linarith)]
    rw [interpSegs_skip _ _ _ _ (by show ¬ e ≤ (1:ℚ)/10; linarith)
      (by show ¬ e ≤ (2:ℚ)/10; linarith)]
    rw [interpSegs_skip _ _ _ _ (by show ¬ e ≤ (2:ℚ)/10; linarith)
      (by show ¬ e ≤ (3:ℚ)/10; linarith)]
    rw [interpSegs_skip _ _ _ _ (by show ¬ e ≤ (3:ℚ)/10; linarith)
      (by show ¬ e ≤ (4:ℚ)/10; linarith)]
    rw [interpSegs_skip _ _ _ _ (by show ¬ e ≤ (4:ℚ)/10; linarith)
      (by show ¬ e ≤ (5:ℚ)/10; linarith)]
    rw [interpSegs_skip _ _ _ _ (by show ¬ e ≤ (5:ℚ)/10; linarith)
      (by show ¬ e ≤ (6:ℚ)/10; linarith)]
    rw [interpSegs_skip _ _ _ _ (by show ¬ e ≤ (6:ℚ)/10; linarith)
      (by show ¬ e ≤ (7:ℚ)/10; linarith)]
    rw [interpSegs_skip _ _ _ _ (by show ¬ e ≤ (7:ℚ)/10; linarith)
      (by show ¬ e ≤ (8:ℚ)/10; linarith)]
    rw [interpSegs_skip _ _ _ _ (by show ¬ e ≤ (8:ℚ)/10; linarith)
      (by show ¬ e ≤ (9:ℚ)/10; linarith)]
    rw [interpSegs_at _ _ _ _ (by show ¬ e ≤ (9:ℚ)/10; linarith)
      (by show e ≤ (1:ℚ); linarith)]
    norm_num

/-- On the full-emergency band [0.9, 1] the is_not-membership interpolates
to 0. -/
theorem emergencyIsNot_interp_zero (e : ℚ) (he1 : 9/10 ≤ e) (he2 : e ≤ 1) :
    interpMembership emergencyUniverse emergencyIsNotVec e = 0 := by
  rcases eq_or_lt_of_le he1 with heq | hlt
  · rw [← heq]
    decide
  · have hh : ¬ e < emergencyUniverse.headI := by
      rw [show emergencyUniverse.headI = (0:ℚ) from by decide]
      linarith
    have hl : ¬ (emergencyUniverse.getLastD 0 < e) := by
      rw [show emergencyUniverse.getLastD 0 = (1:ℚ) from by decide]
      linarith
    rw [interpMembership, if_neg hh, if_neg hl]
    rw [show emergencyUniverse.zip emergencyIsNotVec =
      [((0:ℚ), (1:ℚ)), (1/10, 1), (2/10, 1), (3/10, 1), (4/10, 1), (5/10, 1),
       (6/10, 1), (7/10, 1), (8/10, 1), (9/10, 0), (1, 0)] from by decide]
    rw [interpSegs_skip _ _ _ _ (by show ¬ e ≤ (0:ℚ); linarith)
      (by show ¬ e ≤ (1:ℚ)/10; linarith)]
    rw [interpSegs_skip _ _ _ _ (by show ¬ e ≤ (1:ℚ)/10; linarith)
      (by show ¬ e ≤ (2:ℚ)/10; linarith)]
    rw [interpSegs_skip _ _ _ _ (by show ¬ e ≤ (2:ℚ)/10; linarith)
      (by show ¬ e ≤ (3:ℚ)/10; linarith)]
    rw [interpSegs_skip _ _ _ _ (by show ¬ e ≤ (3:ℚ)/10; linarith)
      (by show ¬ e ≤ (4:ℚ)/10; linarith)]
    rw [interpSegs_skip _ _ _ _ (by show ¬ e ≤ (4:ℚ)/10; linarith)
      (by show ¬ e ≤ (5:ℚ)/10; linarith)]
    rw [interpSegs_skip _ _ _ _ (by show ¬ e ≤ (5:ℚ)/10; linarith)
      (by show ¬ e ≤ (6:ℚ)/10; linarith)]
    rw [interpSegs_skip _ _ _ _ (by show ¬ e ≤ (6:ℚ)/10; linarith)
      (by show ¬ e ≤ (7:ℚ)/10; linarith)]
    rw [interpSegs_skip _ _ _ _ (by show ¬ e ≤ (7:ℚ)/10; linarith)
      (by show ¬ e ≤ (8:ℚ)/10; linarith)]
    rw [interpSegs_skip _ _ _ _ (by show ¬ e ≤ (8:ℚ)/10; linarith)
      (by show ¬ e ≤ (9:ℚ)/10; linarith)]
    rw [interpSegs_at _ _ _ _ (by show ¬ e ≤ (9:ℚ)/10; linarith)
      (by show e ≤ (1:ℚ); linarith)]
    norm_num

/-- Minimum of three nonnegative rationals is nonnegative. -/
theorem nonneg_min3 {x y z : ℚ} (hx : 0 ≤ x) (hy : 0 ≤ y) (hz : 0 ≤ z) :
    0 ≤ min (min x y) z := le_min (le_min hx hy) hz

/-- Maximum with a nonnegative left argument is nonnegative. -/
theorem nonneg_max {x y : ℚ} (hx : 0 ≤ x) : 0 ≤ max x y :=
  le_trans hx (le_max_left _ _)

/-- On the full-emergency band the is-clause fires at 1, every other rule is
conjoined with the vanishing is_not-clause, and the centroid of the clipped
extremely-low consequent is exactly 7/8, whatever the other inputs are. -/
theorem perform_simulation_full_emergency (t q a e : ℚ)
    (he1 : 9/10 ≤ e) (he2 : e ≤ 1) :
    perform_simulation t q a e = 7/8 := by
  have h0e : (0:ℚ) ≤ e := by linarith
  have hIs : (fuzzify t q a e).emergency_is = 1 := by
    rw [fuzzify_emergency_is, clip_emergency_eq e h0e he2]
    exact emergencyIs_interp_one e he1 he2
  have hIsNot : (fuzzify t q a e).emergency_is_not = 0 := by
    rw [fuzzify_emergency_is_not, clip_emergency_eq e h0e he2]
    exact emergencyIsNot_interp_zero e he1 he2
  obtain ⟨htl, htm, hth2, hql, hqm, hqh, hal, ham, hah⟩ :=
    fuzzify_degree_bounds t q a e
  have h1 : rule1.antecedent (fuzzify t q a e) = 1 := by
    simp only [rule1]
    rw [hIs]
    exact max_eq_right
      (le_trans (min_le_left _ _) (le_trans (min_le_left _ _) htl.2))
  have h2 : rule2.antecedent (fuzzify t q a e) = 0 := by
    simp only [rule2]
    rw [hIsNot]
    exact min_eq_right
      (nonneg_max (nonneg_max (nonneg_min3 htl.1 hql.1 ham.1)))
  have h3 : rule3.antecedent (fuzzify t q a e) = 0 := by
    simp only [rule3]
    rw [hIsNot]
    exact min_eq_right
      (nonneg_max (nonneg_max (nonneg_max (nonneg_max
        (nonneg_min3 htl.1 hql.1 hah.1)))))
  have h4 : rule4.antecedent (fuzzify t q a e) = 0 := by
    simp only [rule4]
    rw [hIsNot]
    exact min_eq_right
      (nonneg_max (nonneg_max (nonneg_max (nonneg_max (nonneg_max
        (nonneg_min3 htl.1 hqh.1 hal.1))))))
  have h5 : rule5.antecedent (fuzzify t q a e) = 0 := by
    simp only [rule5]
    rw [hIsNot]
    exact min_eq_right
      (nonneg_max (nonneg_max (nonneg_max (nonneg_max
        (nonneg_min3 htl.1 hqh.1 ham.1)))))
  have h6 : rule6.antecedent (fuzzify t q a e) = 0 := by
    simp only [rule6]
    rw [hIsNot]
    exact min_eq_right
      (nonneg_max (nonneg_max (nonneg_max
        (nonneg_min3 htl.1 hqh.1 hah.1))))
  have h7 : rule7.antecedent (fuzzify t q a e) = 0 := by
    simp only [rule7]
    rw [hIsNot]
    exact min_eq_right
      (nonneg_max (nonneg_max (nonneg_min3 htm.1 hqh.1 hah.1)))
  rw [perform_simulation, inferRules, aggregateRules, trafficRules]
  rw [List.foldl_cons, List.foldl_cons, List.foldl_cons, List.foldl_cons,
      List.foldl_cons, List.foldl_cons, List.foldl_cons, List.foldl_nil]
  rw [h1, h2, h3, h4, h5, h6, h7]
  decide


/-- C2: for every valid crisp input, perform_simulation returns a light
duration inside the declared output range [0, 22): the aggregated vector is
pointwise nonnegative and the centroid of the 0..21 grid stays in bounds,
with the midpoint fallback also inside. -/
theorem perform_simulation_in_output_range (t q a e : ℚ)
    (ht1 : 0 ≤ t) (ht2 : t < 24) (hq1 : 0 ≤ q) (hq2 : q ≤ 40)
    (ha1 : 0 ≤ a) (ha2 : a ≤ 100) (he1 : 0 ≤ e) (he2 : e ≤ 1) :
    0 ≤ perform_simulation t q a e ∧ perform_simulation t q a e < 22 :=
  centroid_light_bounds (aggregateRules trafficRules (fuzzify t q a e))
    (aggregateRules_nonneg trafficRules (fuzzify t q a e))

/-- C2 witness: the output range at the concrete valid input
(10, 30, 60, 0). -/
theorem perform_simulation_in_output_range_witness :
    ((0:ℚ) ≤ 10 ∧ (10:ℚ) < 24 ∧ (0:ℚ) ≤ 30 ∧ (30:ℚ) ≤ 40 ∧ (0:ℚ) ≤ 60 ∧
      (60:ℚ) ≤ 100 ∧ (0:ℚ) ≤ 0 ∧ (0:ℚ) ≤ 1) ∧
    0 ≤ perform_simulation 10 30 60 0 ∧ perform_simulation 10 30 60 0 < 22 :=
  ⟨by norm_num,
   perform_simulation_in_output_range 10 30 60 0 (by norm_num) (by norm_num)
     (by norm_num) (by norm_num) (by norm_num) (by norm_num) (by norm_num)
     (by norm_num)⟩

/-- C4: assess_time computes the degrees of the traffic-density sets in the
fixed order [high, medium, low] and returns the index of the first entry
achieving the maximum: 0 (high) exactly when the high degree is at least the
other two — in particular on every two- or three-way tie involving high —
1 (medium) exactly when medium strictly beats high and is at least low, and
2 (low) exactly when low strictly beats both. -/
theorem assess_time_first_max (value : ℚ) :
    (assess_time value = 0 ↔
      interpMembership trafficUniverse trafficMedVec value ≤
        interpMembership trafficUniverse trafficHighVec value ∧
      interpMembership trafficUniverse trafficLowVec value ≤
        interpMembership trafficUniverse trafficHighVec value) ∧
    (assess_time value = 1 ↔
      interpMembership trafficUniverse trafficHighVec value <
        interpMembership trafficUniverse trafficMedVec value ∧
      interpMembership trafficUniverse trafficLowVec value ≤
        interpMembership trafficUniverse trafficMedVec value) ∧
    (assess_time value = 2 ↔
      interpMembership trafficUniverse trafficHighVec value <
        interpMembership trafficUniverse trafficLowVec value ∧
      interpMembership trafficUniverse trafficMedVec value <
        interpMembership trafficUniverse trafficLowVec value) :=
  list_findIdx_max3 (interpMembership trafficUniverse trafficHighVec value)
    (interpMembership trafficUniverse trafficMedVec value)
    (interpMembership trafficUniverse trafficLowVec value)

/-- C5: under full emergency the output is the constant 7/8, which lies in
the lowest declared band of the consequent: the extremely-low set has
positive membership there and 7/8 is below the right end 3.5 of that band,
near the minimum of the [0, 22) range. -/
theorem perform_simulation_emergency_dominance (t q a : ℚ)
    (ht1 : 0 ≤ t) (ht2 : t < 24) (hq1 : 0 ≤ q) (hq2 : q ≤ 40)
    (ha1 : 0 ≤ a) (ha2 : a ≤ 100) :
    perform_simulation t q a 1 = 7/8 ∧
    0 < interpMembership lightUniverse (lightVec 0)
      (perform_simulation t q a 1) ∧
    perform_simulation t q a 1 < 7/2 := by
  have h := perform_simulation_full_emergency t q a 1 (by norm_num) (le_refl 1)
  refine ⟨h, ?_, ?_⟩
  · rw [h]
    decide
  · rw [h]
    norm_num

/-- C5 witness: emergency dominance at the concrete valid input
(10, 30, 60). -/
theorem perform_simulation_emergency_dominance_witness :
    ((0:ℚ) ≤ 10 ∧ (10:ℚ) < 24 ∧ (0:ℚ) ≤ 30 ∧ (30:ℚ) ≤ 40 ∧ (0:ℚ) ≤ 60 ∧
      (60:ℚ) ≤ 100) ∧
    perform_simulation 10 30 60 1 = 7/8 :=
  ⟨by norm_num,
   (perform_simulation_emergency_dominance 10 30 60 (by norm_num) (by norm_num)
     (by norm_num) (by norm_num) (by norm_num) (by norm_num)).1⟩

/-- C6 counterexample: monotonicity in the queue fails on the code: with
time 7, visibility 76 and emergency 0 fixed — all valid — raising the queue
from 29 to 30 strictly decreases the returned duration. -/
theorem perform_simulation_queue_not_monotone :
    ((0:ℚ) ≤ 29 ∧ (29:ℚ) ≤ 30 ∧ (30:ℚ) ≤ 40) ∧
    perform_simulation 7 30 76 0 < perform_simulation 7 29 76 0 := by
  constructor
  · norm_num
  · decide

/-- C6 (amended): queue monotonicity does not hold in general — see the
counterexample at time 7, visibility 76, emergency 0, queues 29 and 30 — but
it does hold on the full-emergency band 0.9 ≤ emergency ≤ 1, where the
returned duration is the constant 7/8 and is therefore never decreased by a
larger queue. -/
theorem perform_simulation_queue_monotone_full_emergency (t a e q1 q2 : ℚ)
    (ht1 : 0 ≤ t) (ht2 : t < 24) (ha1 : 0 ≤ a) (ha2 : a ≤ 100)
    (he1 : 9/10 ≤ e) (he2 : e ≤ 1)
    (hq1 : 0 ≤ q1) (hq12 : q1 ≤ q2) (hq2 : q2 ≤ 40) :
    perform_simulation t q1 a e ≤ perform_simulation t q2 a e := by
  rw [perform_simulation_full_emergency t q1 a e he1 he2,
      perform_simulation_full_emergency t q2 a e he1 he2]

/-- C6 witness: the amended monotonicity at time 10, visibility 60,
emergency 1, queues 5 and 20. -/
theorem perform_simulation_queue_monotone_full_emergency_witness :
    ((0:ℚ) ≤ 10 ∧ (10:ℚ) < 24 ∧ (0:ℚ) ≤ 60 ∧ (60:ℚ) ≤ 100 ∧
      (9:ℚ)/10 ≤ 1 ∧ (1:ℚ) ≤ 1 ∧ (0:ℚ) ≤ 5 ∧ (5:ℚ) ≤ 20 ∧ (20:ℚ) ≤ 40) ∧
    perform_simulation 10 5 60 1 ≤ perform_simulation 10 20 60 1 :=
  ⟨by norm_num,
   perform_simulation_queue_monotone_full_emergency 10 60 1 5 20 (by norm_num)
     (by norm_num) (by norm_num) (by norm_num) (by norm_num) (by norm_num)
     (by norm_num) (by norm_num) (by norm_num)⟩

/-- Rounding sends a rational to its floor or to the next integer. -/
theorem pyRound_mem (x : ℚ) : pyRound x = ⌊x⌋ ∨ pyRound x = ⌊x⌋ + 1 := by
  rw [pyRound]
  split_ifs <;> simp

/-- Rounding a value of [0, 1) to one decimal place lands in [0, 1]. -/
theorem pyRound1_unit (x : ℚ) (h1 : 0 ≤ x) (h2 : x < 1) :
    0 ≤ pyRound1 x ∧ pyRound1 x ≤ 1 := by
  have hf0 : (0:ℤ) ≤ ⌊x * 10⌋ := Int.floor_nonneg.mpr (by linarith)
  have hf9 : ⌊x * 10⌋ < 10 := by
    have : ⌊x * 10⌋ < (10:ℤ) ↔ x * 10 < ((10:ℤ):ℚ) := Int.floor_lt
    rw [this]
    push_cast
    linarith
  rcases pyRound_mem (x * 10) with hp | hp <;> rw [pyRound1, hp]
  · constructor
    · apply div_nonneg _ (by norm_num)
      exact_mod_cast hf0
    · rw [div_le_one (by norm_num)]
      have : (⌊x * 10⌋:ℚ) < 10 := by exact_mod_cast hf9
      linarith
  · constructor
    · apply div_nonneg _ (by norm_num)
      push_cast
      exact_mod_cast add_nonneg hf0 (by norm_num)
    · rw [div_le_one (by norm_num)]
      push_cast
      have h9 : ⌊x * 10⌋ ≤ 9 := by omega
      have : (⌊x * 10⌋:ℚ) ≤ 9 := by exact_mod_cast h9
      linarith

/-- Example draw of the random source taking every randint at its inclusive
upper end. -/
def initRandomMax : InitRandom :=
  { rand_time := 48, rand_cars_x := 40, rand_cars_y := 40, rand_air := 100,
    rand_emergency := 99/100 }

/-- C8 counterexample: randint(0, 48) is inclusive at 48, so the initial
time_of_day can be 48 / 2 = 24, outside the declared range [0, 24). -/
theorem mkRandomParameters_time_at_24 :
    ((0:ℤ) ≤ initRandomMax.rand_time ∧ initRandomMax.rand_time ≤ 48) ∧
    (mkRandomParameters initRandomMax).time_of_day = 24 ∧
    ¬ ((mkRandomParameters initRandomMax).time_of_day < 24) := by
  refine ⟨by decide, by decide, by decide⟩

/-- C8 (amended): every value produced or resampled by RandomParameters lies
in its range, with the initial time_of_day in the closed interval [0, 24]
(the right end 24 is attainable) rather than [0, 24): queues in [0, 40],
visibility in [0, 100], emergency in [0, 1], and each resample again in its
range. -/
theorem mkRandomParameters_ranges (g : InitRandom)
    (ht1 : 0 ≤ g.rand_time) (ht2 : g.rand_time ≤ 48)
    (hx1 : 0 ≤ g.rand_cars_x) (hx2 : g.rand_cars_x ≤ 40)
    (hy1 : 0 ≤ g.rand_cars_y) (hy2 : g.rand_cars_y ≤ 40)
    (ha1 : 0 ≤ g.rand_air) (ha2 : g.rand_air ≤ 100)
    (he1 : 0 ≤ g.rand_emergency) (he2 : g.rand_emergency < 1) :
    (0 ≤ (mkRandomParameters g).time_of_day ∧
      (mkRandomParameters g).time_of_day ≤ 24) ∧
    (0 ≤ (mkRandomParameters g).cars_queuing_x ∧
      (mkRandomParameters g).cars_queuing_x ≤ 40) ∧
    (0 ≤ (mkRandomParameters g).cars_queuing_y ∧
      (mkRandomParameters g).cars_queuing_y ≤ 40) ∧
    (0 ≤ (mkRandomParameters g).air_transparency ∧
      (mkRandomParameters g).air_transparency ≤ 100) ∧
    (0 ≤ (mkRandomParameters g).emergency ∧
      (mkRandomParameters g).emergency ≤ 1) ∧
    (∀ f : ℤ, 0 ≤ f → f ≤ 100 →
      0 ≤ (change_air_transparency (mkRandomParameters g) f).air_transparency ∧
      (change_air_transparency (mkRandomParameters g) f).air_transparency ≤ 100) ∧
    (∀ f : ℚ, 0 ≤ f → f < 1 →
      0 ≤ (change_emergency (mkRandomParameters g) f).emergency ∧
      (change_emergency (mkRandomParameters g) f).emergency ≤ 1) := by
  have htq1 : (0:ℚ) ≤ (g.rand_time : ℚ) := by exact_mod_cast ht1
  have htq2 : (g.rand_time : ℚ) ≤ 48 := by exact_mod_cast ht2
  refine ⟨⟨?_, ?_⟩, ⟨?_, ?_⟩, ⟨?_, ?_⟩, ⟨?_, ?_⟩, ?_, ?_, ?_⟩
  · exact div_nonneg htq1 (by norm_num)
  · rw [mkRandomParameters]
    show (g.rand_time : ℚ) / 2 ≤ 24
    rw [div_le_iff₀ (by norm_num)]
    linarith
  · show (0:ℚ) ≤ (g.rand_cars_x : ℚ)
    exact_mod_cast hx1
  · show (g.rand_cars_x : ℚ) ≤ 40
    exact_mod_cast hx2
  · show (0:ℚ) ≤ (g.rand_cars_y : ℚ)
    exact_mod_cast hy1
  · show (g.rand_cars_y : ℚ) ≤ 40
    exact_mod_cast hy2
  · show (0:ℚ) ≤ (g.rand_air : ℚ)
    exact_mod_cast ha1
  · show (g.rand_air : ℚ) ≤ 100
    exact_mod_cast ha2
  · exact pyRound1_unit g.rand_emergency he1 he2
  · intro f hf1 hf2
    constructor
    · show (0:ℚ) ≤ (f : ℚ)
      exact_mod_cast hf1
    · show (f:ℚ) ≤ 100
      exact_mod_cast hf2
  · intro f hf1 hf2
    exact pyRound1_unit f hf1 hf2

/-- C8 witness: the amended ranges at the extreme draw. -/
theorem mkRandomParameters_ranges_witness :
    ((0:ℤ) ≤ 48 ∧ (48:ℤ) ≤ 48 ∧ (0:ℤ) ≤ 40 ∧ (40:ℤ) ≤ 40 ∧ (0:ℤ) ≤ 100 ∧
      (100:ℤ) ≤ 100 ∧ (0:ℚ) ≤ 99/100 ∧ (99:ℚ)/100 < 1) ∧
    0 ≤ (mkRandomParameters initRandomMax).time_of_day ∧
    (mkRandomParameters initRandomMax).time_of_day ≤ 24 :=
  ⟨by norm_num,
   (mkRandomParameters_ranges initRandomMax (by decide) (by decide)
     (by decide) (by decide) (by decide) (by decide) (by decide)
     (by decide) (by decide) (by decide)).1⟩


/-- Example driver state used by concrete witnesses and counterexamples:
direction X currently has green. -/
def animExample : AnimationState :=
  { marker := 99, switch_x_y := true, queue_x := 3, queue_y := 4,
    time_of_day := 10, air_transparency := 50, emergency := 0,
    increase_cars_rate := 10 }

/-- Example tick randomness for concrete witnesses and counterexamples. -/
def tickExample : TickRandom :=
  { fresh_emergency_switch := 1/2, fresh_air := 30, fresh_emergency := 3/10 }

/-- C10: the two emergency fuzzy sets form a crisp partition of the emergency
universe: the vectors have the length of the universe (11 samples), their
pointwise sum is 1 everywhere, every entry is 0 or 1, and the is-vector is 1
exactly on the last two samples, which sit at 0.9 and 1.0. -/
theorem emergency_partition :
    emergencyIsVec.length = emergencyUniverse.length ∧
    emergencyIsNotVec.length = emergencyUniverse.length ∧
    List.zipWith (· + ·) emergencyIsVec emergencyIsNotVec =
      List.replicate emergencyUniverse.length 1 ∧
    (∀ m ∈ emergencyIsVec, m = 0 ∨ m = 1) ∧
    (∀ m ∈ emergencyIsNotVec, m = 0 ∨ m = 1) ∧
    emergencyIsVec = List.replicate 9 0 ++ [1, 1] ∧
    emergencyUniverse.length = 11 ∧
    emergencyUniverse.getD 9 37 = 9/10 ∧
    emergencyUniverse.getD 10 37 = 1 := by
  decide

/-- C1: with an empty rule base the aggregated membership vector sums to
zero (the NoRuleFired condition), and inference returns the midpoint of the
consequent universe, 10.5, for every valid input, with no failure or division
by zero. -/
theorem inferRules_empty_returns_midpoint (t q a e : ℚ)
    (ht1 : 0 ≤ t) (ht2 : t < 24) (hq1 : 0 ≤ q) (hq2 : q ≤ 40)
    (ha1 : 0 ≤ a) (ha2 : a ≤ 100) (he1 : 0 ≤ e) (he2 : e ≤ 1) :
    (aggregateRules [] (fuzzify t q a e)).sum = 0 ∧
    inferRules [] t q a e = (listMin lightUniverse + listMax lightUniverse) / 2 ∧
    inferRules [] t q a e = 21/2 := by
  refine ⟨rfl, rfl, rfl⟩

/-- C1 witness: the empty-rule-base fallback at the concrete valid input
(10, 30, 60, 0). -/
theorem inferRules_empty_returns_midpoint_witness :
    ((0:ℚ) ≤ 10 ∧ (10:ℚ) < 24 ∧ (0:ℚ) ≤ 30 ∧ (30:ℚ) ≤ 40 ∧ (0:ℚ) ≤ 60 ∧
      (60:ℚ) ≤ 100 ∧ (0:ℚ) ≤ 0 ∧ (0:ℚ) ≤ 1) ∧
    inferRules [] 10 30 60 0 = 21/2 :=
  ⟨by norm_num,
   (inferRules_empty_returns_midpoint 10 30 60 0 (by norm_num) (by norm_num)
     (by norm_num) (by norm_num) (by norm_num) (by norm_num) (by norm_num)
     (by norm_num)).2.2⟩

/-- C9: the light duration computed by the stateful perform_simulation and
the state it leaves behind depend only on the four crisp inputs of the call,
not on the state the simulation object carried before the call: every input
register is overwritten before compute runs. -/
theorem perform_simulation_stateful_pure (st1 st2 : SimulationInputs)
    (t q a e : ℚ) :
    perform_simulation_stateful st1 t q a e =
      perform_simulation_stateful st2 t q a e := rfl

/-- C3 counterexample: at tick 5 (a multiple of DECREASE_CARS_RATE) with
direction X active (green), the driver decrements the queue of X, the active
direction, and leaves the non-active queue of Y unchanged, contradicting the
claim that the non-active queue is decremented. -/
theorem update_decrease_tick_counterexample :
    animExample.switch_x_y = true ∧
    (update 5 animExample tickExample).queue_x = animExample.queue_x - 1 ∧
    (update 5 animExample tickExample).queue_y = animExample.queue_y ∧
    ¬ ((update 5 animExample tickExample).queue_y = animExample.queue_y - 1) := by
  decide

/-- C3 (amended): on every tick that is a multiple of DECREASE_CARS_RATE
(and is not tick 0, a switch tick, a growth tick or a resample tick), the
driver decrements the queue of the currently active direction (the one with
green) by exactly 1, floored at 0, and leaves the non-active queue unchanged
by this step; the rate is the fixed constant 5, independent of time of day. -/
theorem update_decrease_tick (i : ℕ) (s : AnimationState) (r : TickRandom)
    (h0 : i ≠ 0) (hm : (i : ℚ) ≠ s.marker)
    (hi : i % s.increase_cars_rate ≠ 0)
    (hd : i % DECREASE_CARS_RATE = 0)
    (hp : i % PARAMETERS_CHANGE_RATE ≠ 0) :
    activeQueue (update i s r) = max (activeQueue s - 1) 0 ∧
    inactiveQueue (update i s r) = inactiveQueue s ∧
    (update i s r).switch_x_y = s.switch_x_y ∧
    (update i s r).marker = s.marker := by
  rw [update]
  rw [if_neg h0, if_neg hm, if_neg hi, if_pos hd, if_neg hp]
  cases hsw : s.switch_x_y <;>
    simp [activeQueue, inactiveQueue, adjust_car_number, hsw, sub_eq_add_neg]

/-- C3 witness: the amended statement at tick 5 on the example state. -/
theorem update_decrease_tick_witness :
    ((5 : ℕ) ≠ 0 ∧ ((5 : ℕ) : ℚ) ≠ animExample.marker ∧
      5 % animExample.increase_cars_rate ≠ 0 ∧ 5 % DECREASE_CARS_RATE = 0 ∧
      5 % PARAMETERS_CHANGE_RATE ≠ 0) ∧
    activeQueue (update 5 animExample tickExample) =
      max (activeQueue animExample - 1) 0 :=
  ⟨⟨by decide, by decide, by decide, by decide, by decide⟩,
   (update_decrease_tick 5 animExample tickExample (by decide) (by decide)
     (by decide) (by decide) (by decide)).1⟩

/-- Projections of update_marker_and_switch that the switch step leaves
unchanged. -/
theorem update_marker_and_switch_stable (s : AnimationState) (fresh : ℚ) :
    (update_marker_and_switch s fresh).increase_cars_rate = s.increase_cars_rate ∧
    (update_marker_and_switch s fresh).queue_x = s.queue_x ∧
    (update_marker_and_switch s fresh).queue_y = s.queue_y ∧
    (update_marker_and_switch s fresh).air_transparency = s.air_transparency ∧
    (update_marker_and_switch s fresh).time_of_day = s.time_of_day := by
  rw [update_marker_and_switch]
  split_ifs <;> exact ⟨rfl, rfl, rfl, rfl, rfl⟩

/-- Fields the switch step updates: the toggled direction flag, the
accumulated marker, and the conditionally resampled emergency. -/
theorem update_marker_and_switch_spec (s : AnimationState) (fresh : ℚ) :
    (update_marker_and_switch s fresh).switch_x_y = ! s.switch_x_y ∧
    (update_marker_and_switch s fresh).marker = s.marker +
      (pyRound (perform_simulation s.time_of_day
        (if s.switch_x_y then s.queue_y else s.queue_x)
        s.air_transparency s.emergency * 10) : ℚ) ∧
    (update_marker_and_switch s fresh).emergency =
      (if EMERGENCY_THRESHOLD < s.emergency then fresh else s.emergency) := by
  rw [update_marker_and_switch]
  split_ifs <;> exact ⟨rfl, rfl, rfl⟩

/-- The per-tick driver at a pure switch tick reduces to the switch step. -/
theorem update_eq_switch_step (i : ℕ) (s : AnimationState) (r : TickRandom)
    (h0 : i ≠ 0) (hm : (i : ℚ) = s.marker)
    (hi : i % s.increase_cars_rate ≠ 0)
    (hd : i % DECREASE_CARS_RATE ≠ 0)
    (hp : i % PARAMETERS_CHANGE_RATE ≠ 0) :
    update i s r = update_marker_and_switch s r.fresh_emergency_switch := by
  rw [update]
  rw [if_neg h0, if_pos hm,
    (update_marker_and_switch_stable s r.fresh_emergency_switch).1,
    if_neg hi, if_neg hd, if_neg hp]

/-- C7: at a switch tick (tick index equal to the marker, not tick 0 and not
a growth, decrease or resample tick), the driver runs inference on the queue
of the other direction — which is exactly the direction that is active after
the tick — with the current visibility and emergency, adds
round(duration * 10) to the existing marker (the marker accumulates), toggles
the active direction, and resamples the emergency parameter exactly when it
exceeds the threshold 0.8, regardless of which direction becomes active. -/
theorem update_switch_tick (i : ℕ) (s : AnimationState) (r : TickRandom)
    (h0 : i ≠ 0) (hm : (i : ℚ) = s.marker)
    (hi : i % s.increase_cars_rate ≠ 0)
    (hd : i % DECREASE_CARS_RATE ≠ 0)
    (hp : i % PARAMETERS_CHANGE_RATE ≠ 0) :
    (update i s r).switch_x_y = ! s.switch_x_y ∧
    (update i s r).marker = s.marker +
      (pyRound (perform_simulation s.time_of_day (inactiveQueue s)
        s.air_transparency s.emergency * 10) : ℚ) ∧
    inactiveQueue s = activeQueue (update i s r) ∧
    (update i s r).emergency =
      (if EMERGENCY_THRESHOLD < s.emergency then r.fresh_emergency_switch
       else s.emergency) ∧
    (update i s r).queue_x = s.queue_x ∧
    (update i s r).queue_y = s.queue_y ∧
    (update i s r).air_transparency = s.air_transparency ∧
    (update i s r).time_of_day = s.time_of_day := by
  rw [update_eq_switch_step i s r h0 hm hi hd hp]
  obtain ⟨hinc, hqx, hqy, hair, htime⟩ :=
    update_marker_and_switch_stable s r.fresh_emergency_switch
  obtain ⟨hsw, hmk, hem⟩ :=
    update_marker_and_switch_spec s r.fresh_emergency_switch
  refine ⟨hsw, ?_, ?_, hem, hqx, hqy, hair, htime⟩
  · rw [hmk, inactiveQueue]
  · rw [activeQueue, hsw, hqx, hqy, inactiveQueue]
    cases s.switch_x_y <;> rfl

/-- C7 witness: a switch at tick 99 on the example state (the marker is 99
and no other per-tick action applies at 99). -/
theorem update_switch_tick_witness :
    ((99 : ℕ) ≠ 0 ∧ ((99 : ℕ) : ℚ) = animExample.marker ∧
      99 % animExample.increase_cars_rate ≠ 0 ∧
      99 % DECREASE_CARS_RATE ≠ 0 ∧ 99 % PARAMETERS_CHANGE_RATE ≠ 0) ∧
    (update 99 animExample tickExample).switch_x_y = ! animExample.switch_x_y ∧
    (update 99 animExample tickExample).marker = animExample.marker +
      (pyRound (perform_simulation animExample.time_of_day
        (inactiveQueue animExample) animExample.air_transparency
        animExample.emergency * 10) : ℚ) :=
  ⟨⟨by decide, by decide, by decide, by decide, by decide⟩,
   (update_switch_tick 99 animExample tickExample (by decide) (by decide)
     (by decide) (by decide) (by decide)).1,
   (update_switch_tick 99 animExample tickExample (by decide) (by decide)
     (by decide) (by decide) (by decide)).2.1⟩
